import Mathlib

/-!
Shallow embedding of the pharma-bot scheduling and device-relay core
(`app/api/routes.py`, `app/services/gemini_service.py`,
`app/iot/esp32_manager.py`, and the SQLAlchemy models under `app/models/`).

Text is modelled as `List Char`; Python `datetime` values as a
day/hour/minute record (one fixed local-calendar offset, no DST, matching
`app/utils/timezone.py` which always produces naive Asia/Dhaka wall-clock
times); database tables as Lean lists of rows; HTTP handlers as pure
functions from the relevant tables and request data to a status code plus
the updated tables.
-/

set_option maxRecDepth 8192

namespace PharmaBot

/-- Python strings are modelled as lists of characters. -/
abbrev Text := List Char

/-- Python `str.lower()`. -/
def lowerText (s : Text) : Text := s.map Char.toLower

/-- Needle is an initial segment of the haystack (helper for substring
containment, mirroring Python's `in`). -/
def beginsWith : Text → Text → Bool
  | [], _ => true
  | _ :: _, [] => false
  | a :: as, b :: bs => a == b && beginsWith as bs

/-- Python's `needle in haystack` substring test. -/
def containsSub (needle : Text) : Text → Bool
  | [] => beginsWith needle []
  | c :: rest => beginsWith needle (c :: rest) || containsSub needle rest

/-- Value of a digit string, as computed by Python `int` on a string of
decimal digits (e.g. the result of joining `filter(str.isdigit, s)`). -/
def digitsVal (ds : Text) : Nat := ds.foldl (fun acc c => acc * 10 + (c.toNat - 48)) 0

/-- `parse_duration` from `app/api/routes.py` (lines 175-188): lowercase the
string, test for the unit keywords day/week/month in that order, join the
embedded digits into a magnitude (with per-unit defaults 7/1/1 when no digit
occurs), scale by 1/7/30, and default to 7 when no unit keyword occurs. -/
def parse_duration (duration_str : Text) : Nat :=
  let s := lowerText duration_str
  if containsSub "day".toList s then
    (if s.filter Char.isDigit = [] then 7 else digitsVal (s.filter Char.isDigit))
  else if containsSub "week".toList s then
    (if s.filter Char.isDigit = [] then 1 else digitsVal (s.filter Char.isDigit)) * 7
  else if containsSub "month".toList s then
    (if s.filter Char.isDigit = [] then 1 else digitsVal (s.filter Char.isDigit)) * 30
  else
    7

/-- The priority-ordered frequency-phrase table of
`GeminiPrescriptionParser.extract_timing_from_frequency`
(`app/services/gemini_service.py`, lines 229-246); Python dict literals
iterate in insertion order. -/
def timing_map : List (Text × List Text) :=
  [("once daily".toList, ["09:00".toList]),
   ("once a day".toList, ["09:00".toList]),
   ("twice daily".toList, ["09:00".toList, "21:00".toList]),
   ("twice a day".toList, ["09:00".toList, "21:00".toList]),
   ("three times daily".toList, ["08:00".toList, "14:00".toList, "20:00".toList]),
   ("three times a day".toList, ["08:00".toList, "14:00".toList, "20:00".toList]),
   ("four times daily".toList, ["08:00".toList, "12:00".toList, "16:00".toList, "20:00".toList]),
   ("four times a day".toList, ["08:00".toList, "12:00".toList, "16:00".toList, "20:00".toList]),
   ("every 6 hours".toList, ["06:00".toList, "12:00".toList, "18:00".toList, "00:00".toList]),
   ("every 8 hours".toList, ["08:00".toList, "16:00".toList, "00:00".toList]),
   ("every 12 hours".toList, ["08:00".toList, "20:00".toList]),
   ("morning".toList, ["09:00".toList]),
   ("evening".toList, ["21:00".toList]),
   ("night".toList, ["22:00".toList]),
   ("bedtime".toList, ["22:00".toList]),
   ("before bed".toList, ["22:00".toList])]

/-- `extract_timing_from_frequency` (`app/services/gemini_service.py`,
lines 225-252): first table phrase contained in the lowercased frequency
wins; no match defaults to 09:00. -/
def extract_timing_from_frequency (frequency : Text) : List Text :=
  let fl := lowerText frequency
  match timing_map.find? (fun p => containsSub p.1 fl) with
  | some p => p.2
  | none => ["09:00".toList]

/-- Python `hour, minute = map(int, time_str.split(':'))` applied to an
"HH:MM" string (`app/api/routes.py`, line 164). -/
def parseTimeStr (t : Text) : Nat × Nat :=
  (digitsVal (t.takeWhile (fun c => c != ':')),
   digitsVal ((t.dropWhile (fun c => c != ':')).drop 1))

/-- A naive local datetime at minute resolution (the scheduling code only
ever constructs times with zero seconds): a linear day number plus
hour/minute of day. `timedelta(days=k)` adds to `day`; `.replace(hour,
minute)` overwrites the time-of-day fields. -/
structure DateTime where
  day : Nat
  hour : Nat
  minute : Nat
deriving DecidableEq, Repr

/-- Total minutes, the order Python uses to compare datetimes. -/
def DateTime.toMin (t : DateTime) : Nat := t.day * 1440 + t.hour * 60 + t.minute

/-- A row of the `schedules` table (`app/models/schedule.py`): one
DoseInstance. Column defaults: `taken=False`, `taken_at=NULL`,
`skipped=False`. `id` is 0 for rows not yet assigned a key by the database. -/
structure Schedule where
  id : Nat
  medicine_id : Nat
  user_id : Nat
  scheduled_time : DateTime
  taken : Bool := false
  taken_at : Option DateTime := none
  skipped : Bool := false
deriving DecidableEq, Repr

/-- A row of the `medicines` table (`app/models/medicine.py`), restricted to
the columns the scheduling core reads. `compartment_number` is set by the
compartment-assignment endpoints as a plain attribute (`none` models a row
on which it was never set, i.e. Python `None`/absent). -/
structure Medicine where
  id : Nat
  prescription_id : Nat
  name : Text
  dosage : Text
  frequency : Text
  duration : Option Text
  instructions : Option Text
  compartment_number : Option Int := none
deriving DecidableEq, Repr

/-- The single dose row built by one inner-loop iteration of
`create_schedules_for_medicine`: day offset added to the start date, then
hour/minute replaced by the canonical time-of-day. -/
def doseAt (medicine : Medicine) (user_id : Nat) (start_date : DateTime)
    (day : Nat) (time_str : Text) : Schedule :=
  { id := 0, medicine_id := medicine.id, user_id := user_id,
    scheduled_time :=
      { day := start_date.day + day,
        hour := (parseTimeStr time_str).1,
        minute := (parseTimeStr time_str).2 } }

/-- Days of therapy for one medicine row:
`parse_duration(medicine.duration) if medicine.duration else 7`
(`app/api/routes.py`, line 146). -/
def durationDaysOf (medicine : Medicine) : Nat :=
  match medicine.duration with
  | some d => parse_duration d
  | none => 7

/-- `create_schedules_for_medicine` (`app/api/routes.py`, lines 141-172) with
an explicit `start_date`: the Materializer. Returns the batch of rows added
to the session. -/
def create_schedules_for_medicine (medicine : Medicine) (user_id : Nat)
    (start_date : DateTime) : List Schedule :=
  let times := extract_timing_from_frequency medicine.frequency
  let duration_days := durationDaysOf medicine
  (List.range duration_days).flatMap (fun day =>
    times.map (fun time_str => doseAt medicine user_id start_date day time_str))

/-- `regenerate_schedules` (`app/api/routes.py`, lines 255-310), the
Regeneration Engine, for a caller-supplied start date: delete the rows of
(medicine, owner) with `scheduled_time >= now` and `taken == False`, then
re-materialize from the new anchor. -/
def regenerate_schedules (db : List Schedule) (medicine : Medicine)
    (user_id : Nat) (now : DateTime) (start_date : DateTime) : List Schedule :=
  db.filter (fun s =>
      !(s.medicine_id == medicine.id && s.user_id == user_id &&
        decide (now.toMin ≤ s.scheduled_time.toMin) && s.taken == false))
    ++ create_schedules_for_medicine medicine user_id start_date

/-- Mutate the first row matched by `p` (SQLAlchemy `query.first()` followed
by attribute assignment and commit; primary-key lookups match at most one
row). -/
def updateFirst (p : α → Bool) (f : α → α) : List α → List α
  | [] => []
  | x :: xs => if p x then f x :: xs else x :: updateFirst p f xs

/-- `update_schedule` (`app/api/routes.py`, lines 368-399): PUT on a
schedule. 404 when no row of the caller has that id, 400 when the row is
already taken, otherwise overwrite `scheduled_time` when a new one is
supplied. Returns the HTTP status and the updated table. -/
def update_schedule (db : List Schedule) (user_id schedule_id : Nat)
    (scheduled_time : Option DateTime) : Nat × List Schedule :=
  match db.find? (fun s => s.id == schedule_id && s.user_id == user_id) with
  | none => (404, db)
  | some s =>
    if s.taken then (400, db)
    else
      match scheduled_time with
      | some t => (200, updateFirst (fun q => q.id == schedule_id && q.user_id == user_id)
          (fun q => { q with scheduled_time := t }) db)
      | none => (200, db)

/-- `delete_schedule` (`app/api/routes.py`, lines 402-419): DELETE on a
schedule. 404 when not owned, 400 when already taken, else remove the row. -/
def delete_schedule (db : List Schedule) (user_id schedule_id : Nat) :
    Nat × List Schedule :=
  match db.find? (fun s => s.id == schedule_id && s.user_id == user_id) with
  | none => (404, db)
  | some s =>
    if s.taken then (400, db)
    else (200, db.eraseP (fun q => q.id == schedule_id && q.user_id == user_id))

/-- `mark_schedule_dispensed` (`app/api/routes.py`, lines 771-797), the
device-triggered dose confirmation: the posted `device_id` is read but never
used; a falsy (`None` or `0`) `schedule_id` is rejected; the schedule is
fetched by primary key alone (no owner or device pairing check) and set to
taken with `taken_at` stamped. -/
def mark_schedule_dispensed (db : List Schedule) (schedule_id : Option Nat)
    (device_id : Option Text) (now : DateTime) : Nat × List Schedule :=
  match schedule_id with
  | none => (400, db)
  | some sid =>
    if sid == 0 then (400, db)
    else
      match db.find? (fun s => s.id == sid) with
      | none => (404, db)
      | some _ => (200, updateFirst (fun s => s.id == sid)
          (fun s => { s with taken := true, taken_at := some now }) db)

/-- A row of the `users` table, restricted to what the device endpoints
read. -/
structure User where
  id : Nat
  username : Text
deriving DecidableEq, Repr

/-- The telemetry snapshot posted to `/device/state` (`app/api/routes.py`,
lines 824-833), with the handler's defaults already applied and the server
timestamp included. -/
structure Telemetry where
  servo_angles : List Int
  ultrasonic_distance : Int
  medicine_detected : Bool
  led_state : Bool
  buzzer_state : Bool
  current_operation : Text
  last_dispense_time : Option Text
  timestamp : DateTime
deriving DecidableEq, Repr

/-- One entry of the `pending_commands` list (`app/api/routes.py`, lines
953-957). `params` is kept as an opaque serialized blob. -/
structure Command where
  command : Text
  params : Text
  timestamp : DateTime
deriving DecidableEq, Repr

/-- The parsed JSON object stored in `hardware_state`, restricted to the
keys the code reads or writes: the telemetry keys (as a block, present or
absent) and the `pending_commands` key (absent, or present with a list). -/
structure StateObj where
  telemetry : Option Telemetry
  pending_commands : Option (List Command)
deriving DecidableEq, Repr

/-- The raw `hardware_state` column: `NULL` or the empty string (falsy),
a non-empty string on which `json.loads` raises (kept byte-for-byte as
`raw`), or a well-formed serialized object. -/
inductive HWState where
  | empty
  | malformed (raw : Text)
  | obj (o : StateObj)
deriving DecidableEq, Repr

/-- The pending-command queue an observer can read out of a stored
`hardware_state` (empty when the blob is missing, malformed, or lacks the
key). -/
def pendingView : HWState → List Command
  | .obj o => o.pending_commands.getD []
  | _ => []

/-- The `hardware_state` transformation performed by `send_device_command`
(`app/api/routes.py`, lines 941-959): parse the stored blob (a missing or
unparseable blob becomes the empty object), create `pending_commands` if
absent, append the new command, serialize back. -/
def enqueue_command (st : HWState) (command : Text) (params : Text)
    (now : DateTime) : HWState :=
  let state_data : StateObj :=
    match st with
    | .obj o => o
    | _ => { telemetry := none, pending_commands := none }
  let pending := state_data.pending_commands.getD []
  .obj { state_data with
         pending_commands := some (pending ++ [{ command := command, params := params, timestamp := now }]) }

/-- The `hardware_state` read-and-clear performed by `get_device_commands`
(`app/api/routes.py`, lines 988-1002): a missing blob returns no commands
and writes nothing; an unparseable blob hits the `except` arm, returning no
commands and writing nothing; a parsed object yields its `pending_commands`
(or `[]` when the key is absent) and is written back with the key set to
`[]`. Returns the drained batch and the resulting state. -/
def drain_state : HWState → List Command × HWState
  | .empty => ([], .empty)
  | .malformed raw => ([], .malformed raw)
  | .obj o => (o.pending_commands.getD [], .obj { o with pending_commands := some [] })

/-- One drain step as a state transformer (the stored state after a poll). -/
def drainStep (st : HWState) : HWState := (drain_state st).2

/-- A row of the `iot_devices` table (`app/models/iot_device.py`),
restricted to the columns the relay and registry endpoints touch. -/
structure IoTDevice where
  user_id : Nat
  device_id : Text
  device_name : Text
  device_type : Text
  ip_address : Option Text
  is_online : Bool
  last_seen : Option DateTime
  hardware_state : HWState
deriving DecidableEq, Repr

/-- `ESP32Manager.update_device_status` (`app/iot/esp32_manager.py`, lines
41-53): look the device up by `device_id` alone; when found, set
`is_online`, stamp `last_seen`, overwrite `ip_address` when a truthy one is
given, and report `true`; when absent, change nothing and report `false`. -/
def update_device_status (devices : List IoTDevice) (device_id : Text)
    (is_online : Bool) (ip_address : Option Text) (now : DateTime) :
    Bool × List IoTDevice :=
  match devices.find? (fun d => d.device_id == device_id) with
  | some _ => (true, updateFirst (fun d => d.device_id == device_id)
      (fun d =>
        { d with
          is_online := is_online,
          last_seen := some now,
          ip_address := (match ip_address with
            | some ip => if ip.isEmpty then d.ip_address else some ip
            | none => d.ip_address) }) devices)
  | none => (false, devices)

/-- The `/device/<device_id>/status` handler (`app/api/routes.py`, lines
467-482): delegate to the manager; 200 on success, non-fatal 404 when the
device is unknown. -/
def device_status (devices : List IoTDevice) (device_id : Text)
    (ip_address : Option Text) (now : DateTime) : Nat × List IoTDevice :=
  let r := update_device_status devices device_id true ip_address now
  (if r.1 then 200 else 404, r.2)

/-- The `/device/heartbeat` handler (`app/api/routes.py`, lines 728-768):
400 when `device_id` or `username` is falsy, 404 when the username is
unknown; otherwise UPSERT by (`device_id`, owner): stamp an existing row, or
insert a brand-new device row when none exists. -/
def device_heartbeat (devices : List IoTDevice) (users : List User)
    (device_id username device_name : Option Text) (now : DateTime) :
    Nat × List IoTDevice :=
  match device_id, username with
  | some did, some uname =>
    if did.isEmpty || uname.isEmpty then (400, devices)
    else
      match users.find? (fun u => u.username == uname) with
      | none => (404, devices)
      | some user =>
        match devices.find? (fun d => d.device_id == did && d.user_id == user.id) with
        | some _ => (200, updateFirst (fun d => d.device_id == did && d.user_id == user.id)
            (fun d => { d with last_seen := some now, is_online := true }) devices)
        | none => (200, devices ++
            [{ user_id := user.id,
               device_id := did,
               device_name := device_name.getD "Arduino Dispenser".toList,
               device_type := "Arduino".toList,
               ip_address := none,
               is_online := true,
               last_seen := some now,
               hardware_state := .empty }])
  | _, _ => (400, devices)

/-- The `/device/state` handler `update_device_state` (`app/api/routes.py`,
lines 800-837): after resolving the user and the device, the stored
`hardware_state` is overwritten wholesale with a fresh object holding only
the telemetry keys — the old blob is never read, so no `pending_commands`
key survives. -/
def update_device_state (devices : List IoTDevice) (users : List User)
    (device_id username : Option Text) (t : Telemetry) : Nat × List IoTDevice :=
  match device_id with
  | none => (400, devices)
  | some did =>
    if did.isEmpty then (400, devices)
    else
      match username with
      | none => (404, devices)
      | some uname =>
        match users.find? (fun u => u.username == uname) with
        | none => (404, devices)
        | some user =>
          match devices.find? (fun d => d.device_id == did && d.user_id == user.id) with
          | none => (404, devices)
          | some _ => (200, updateFirst (fun d => d.device_id == did && d.user_id == user.id)
              (fun d =>
                { d with
                  hardware_state := .obj { telemetry := some t, pending_commands := none } })
              devices)

/-- The `/device/command` handler `send_device_command` (`app/api/routes.py`,
lines 918-965): the authenticated caller enqueues one command onto the
addressed device's `hardware_state`. -/
def send_device_command (devices : List IoTDevice) (user_id : Nat)
    (device_id command : Option Text) (params : Text) (now : DateTime) :
    Nat × List IoTDevice :=
  match device_id, command with
  | some did, some cmd =>
    if did.isEmpty || cmd.isEmpty then (400, devices)
    else
      match devices.find? (fun d => d.device_id == did && d.user_id == user_id) with
      | none => (404, devices)
      | some _ => (200, updateFirst (fun d => d.device_id == did && d.user_id == user_id)
          (fun d => { d with hardware_state := enqueue_command d.hardware_state cmd params now })
          devices)
  | _, _ => (400, devices)

/-- The `/device/commands` polling handler `get_device_commands`
(`app/api/routes.py`, lines 968-1002): every failure path answers 200 with
an empty command list and leaves the table untouched; on success the found
device's `hardware_state` goes through the read-and-clear `drain_state`. -/
def get_device_commands (devices : List IoTDevice) (users : List User)
    (device_id username : Option Text) : Nat × List Command × List IoTDevice :=
  match device_id, username with
  | some did, some uname =>
    if did.isEmpty || uname.isEmpty then (200, [], devices)
    else
      match users.find? (fun u => u.username == uname) with
      | none => (200, [], devices)
      | some user =>
        match devices.find? (fun d => d.device_id == did && d.user_id == user.id) with
        | none => (200, [], devices)
        | some d => (200, (drain_state d.hardware_state).1,
            updateFirst (fun q => q.device_id == did && q.user_id == user.id)
              (fun q => { q with hardware_state := drainStep q.hardware_state }) devices)
  | _, _ => (200, [], devices)

/-- One response entry built by `get_device_schedules` (`app/api/routes.py`,
lines 668-678); `scheduled_time` is exported as a numeric timestamp
(modelled in minutes). -/
structure DevicePayloadEntry where
  schedule_id : Nat
  medicine_id : Nat
  medicine_name : Text
  dosage : Text
  instructions : Text
  compartment_number : Int
  scheduled_time : Nat
  taken : Bool
  skipped : Bool
deriving DecidableEq, Repr

/-- The entry built for one schedule row joined with its medicine. -/
def mkDeviceEntry (s : Schedule) (m : Medicine) (c : Int) : DevicePayloadEntry :=
  { schedule_id := s.id, medicine_id := m.id, medicine_name := m.name,
    dosage := m.dosage, instructions := m.instructions.getD [],
    compartment_number := c, scheduled_time := s.scheduled_time.toMin,
    taken := s.taken, skipped := s.skipped }

/-- The per-row body of the response loop of `get_device_schedules`
(`app/api/routes.py`, lines 664-678): look up the schedule's medicine (the
ORM backref) and keep the row only when that medicine has a truthy,
positive `compartment_number` (`if medicine.compartment_number and
medicine.compartment_number > 0`). -/
def deviceEntryFor (meds : List Medicine) (s : Schedule) : Option DevicePayloadEntry :=
  match meds.find? (fun m => m.id == s.medicine_id) with
  | none => none
  | some m =>
    match m.compartment_number with
    | none => none
    | some c => if c != 0 && decide (0 < c) then some (mkDeviceEntry s m c) else none

/-- The `/device/schedules` handler `get_device_schedules`
(`app/api/routes.py`, lines 633-686): resolve the username; query the user's
schedule rows with `now <= scheduled_time <= now + 7 days` and
`taken == False`, ordered by `scheduled_time`; then keep each row passing
the compartment filter. -/
def get_device_schedules (users : List User) (meds : List Medicine)
    (db : List Schedule) (username : Option Text) (now : DateTime) :
    Nat × List DevicePayloadEntry :=
  match username with
  | none => (400, [])
  | some uname =>
    if uname.isEmpty then (400, [])
    else
      match users.find? (fun u => u.username == uname) with
      | none => (404, [])
      | some user =>
        let schedules := (db.filter (fun s =>
            s.user_id == user.id &&
            decide (now.toMin ≤ s.scheduled_time.toMin) &&
            decide (s.scheduled_time.toMin ≤ now.toMin + 7 * 1440) &&
            s.taken == false)).mergeSort
          (fun a b => decide (a.scheduled_time.toMin ≤ b.scheduled_time.toMin))
        (200, schedules.filterMap (deviceEntryFor meds))

/-- The spec's unit table for `normalize_duration` (§4.1): unit keyword, in
scan order, with its day scale and its default magnitude when the text
carries no digits. -/
def duration_unit_table : List (Text × Nat × Nat) :=
  [("day".toList, 1, 7), ("week".toList, 7, 1), ("month".toList, 30, 1)]

/-- Specification-level `normalize_duration`, written from the spec's words
(§4.1) to compare against the implementation `parse_duration`: lowercase;
scan for a unit keyword in the order day, week, month; read the magnitude
off the embedded digits; scale it by the unit's factor, falling back to the
per-unit default magnitude when no digits occur; return 7 when no unit
keyword is found. -/
def normalize_duration_spec (text : Text) : Nat :=
  let s := lowerText text
  match duration_unit_table.find? (fun u => containsSub u.1 s) with
  | some u => (if s.filter Char.isDigit = [] then u.2.2 else digitsVal (s.filter Char.isDigit)) * u.2.1
  | none => 7

/-- A batch of `/device/command` posts applied in order to one device's
stored state. -/
def enqueueBatch (st : HWState) (ops : List (Text × Text × DateTime)) : HWState :=
  ops.foldl (fun s op => enqueue_command s op.1 op.2.1 op.2.2) st

/-- The command record a single enqueue operation stores. -/
def opCommand (op : Text × Text × DateTime) : Command :=
  { command := op.1, params := op.2.1, timestamp := op.2.2 }

/-- Concrete rows exercising the taken-dose guard. -/
def wTakenRow : Schedule :=
  { id := 5, medicine_id := 1, user_id := 1, scheduled_time := ⟨10, 9, 0⟩,
    taken := true, taken_at := some ⟨10, 9, 5⟩, skipped := false }

/-- A pending dose of the same owner. -/
def wPendingRow : Schedule :=
  { id := 6, medicine_id := 1, user_id := 1, scheduled_time := ⟨11, 9, 0⟩ }

/-- A two-row schedule table with one taken and one pending dose. -/
def wdb : List Schedule := [wTakenRow, wPendingRow]

/-- Witness device rows for the relay-queue claims: one queued command, one
telemetry snapshot, one device with a queued command, one device with a
malformed blob, and their owner. -/
def cCmd : Command :=
  { command := "dispense".toList, params := "compartment 1".toList, timestamp := ⟨0, 0, 0⟩ }

/-- A telemetry snapshot as posted by the firmware (defaults applied). -/
def cTel : Telemetry :=
  { servo_angles := [0, 0, 0], ultrasonic_distance := 0, medicine_detected := false,
    led_state := false, buzzer_state := false, current_operation := "idle".toList,
    last_dispense_time := none, timestamp := ⟨0, 0, 5⟩ }

/-- A device whose stored state carries one pending command. -/
def cDev : IoTDevice :=
  { user_id := 1, device_id := "esp-1".toList, device_name := "dispenser".toList,
    device_type := "Arduino".toList, ip_address := none, is_online := true,
    last_seen := none,
    hardware_state := .obj { telemetry := none, pending_commands := some [cCmd] } }

/-- A device whose stored state is an unparseable blob. -/
def cDevBad : IoTDevice :=
  { user_id := 1, device_id := "esp-2".toList, device_name := "dispenser".toList,
    device_type := "Arduino".toList, ip_address := none, is_online := true,
    last_seen := none, hardware_state := .malformed "not json \x7b".toList }

/-- The owner of the witness devices. -/
def cUser : User := { id := 1, username := "alice".toList }

/-- The known user for the heartbeat counterexample. -/
def hUser : User := { id := 7, username := "bob".toList }

/-- The concrete medicine used across the scheduling witnesses. -/
def wMed : Medicine :=
  { id := 1, prescription_id := 1, name := "Napa".toList, dosage := "500mg".toList,
    frequency := "twice daily".toList, duration := some "2 days".toList,
    instructions := none }

/-- A future but already-taken dose of `wMed`. -/
def wTakenFuture : Schedule :=
  { id := 21, medicine_id := 1, user_id := 1, scheduled_time := ⟨200, 9, 0⟩,
    taken := true, taken_at := some ⟨199, 9, 0⟩ }

/-- A historical pending dose of `wMed`. -/
def wHist : Schedule :=
  { id := 22, medicine_id := 1, user_id := 1, scheduled_time := ⟨50, 9, 0⟩ }

/-- A future pending dose of `wMed` (the only row the regeneration should
delete). -/
def wFuturePending : Schedule :=
  { id := 23, medicine_id := 1, user_id := 1, scheduled_time := ⟨210, 9, 0⟩ }

/-- The schedule table for the regeneration witness. -/
def wRegenDb : List Schedule := [wTakenFuture, wHist, wFuturePending]

/-- The user for the device-schedules counterexample. -/
def xUser : User := { id := 1, username := "carol".toList }

/-- A medicine assigned compartment 1. -/
def xMedA : Medicine :=
  { id := 31, prescription_id := 1, name := "Ace".toList, dosage := "250mg".toList,
    frequency := "once daily".toList, duration := none, instructions := none,
    compartment_number := some 1 }

/-- A medicine assigned compartment 4, outside the dispenser's 1-3 range. -/
def xMedB : Medicine :=
  { id := 32, prescription_id := 1, name := "Beta".toList, dosage := "10mg".toList,
    frequency := "once daily".toList, duration := none, instructions := none,
    compartment_number := some 4 }

/-- A skipped (hence not pending) but untaken dose inside the 7-day window. -/
def xSkipped : Schedule :=
  { id := 41, medicine_id := 31, user_id := 1, scheduled_time := ⟨100, 9, 0⟩,
    skipped := true }

/-- A pending dose of the compartment-4 medicine inside the window. -/
def xComp4 : Schedule :=
  { id := 42, medicine_id := 32, user_id := 1, scheduled_time := ⟨101, 9, 0⟩ }

/-- Helper: the element updated by `updateFirst` is a member of the result
whenever `find?` locates a match. -/
theorem mem_updateFirst_of_find? {α : Type} {p : α → Bool} {f : α → α} :
    ∀ {l : List α} {x : α}, l.find? p = some x → f x ∈ updateFirst p f l := by
  intro l
  induction l with
  | nil => intro x h; simp [List.find?] at h
  | cons a as ih =>
    intro x h
    cases hpa : p a with
    | true =>
      simp only [List.find?, hpa, Option.some.injEq] at h
      subst h
      simp [updateFirst, hpa]
    | false =>
      simp only [List.find?, hpa] at h
      have hstep : updateFirst p f (a :: as) = a :: updateFirst p f as := by
        simp [updateFirst, hpa]
      rw [hstep]
      exact List.mem_cons_of_mem a (ih h)

/-- Helper: `updateFirst` whose update fixes the found row leaves the whole
list unchanged. -/
theorem updateFirst_eq_self {α : Type} {p : α → Bool} {f : α → α} :
    ∀ {l : List α} {x : α}, l.find? p = some x → f x = x → updateFirst p f l = l := by
  intro l
  induction l with
  | nil => intro x h _; simp [List.find?] at h
  | cons a as ih =>
    intro x h hfx
    cases hpa : p a with
    | true =>
      simp only [List.find?, hpa, Option.some.injEq] at h
      subst h
      simp [updateFirst, hpa, hfx]
    | false =>
      simp only [List.find?, hpa] at h
      simp [updateFirst, hpa, ih h hfx]

/-- Helper: a drain reports exactly the queue an observer can read from the
stored blob. -/
theorem drain_state_fst (st : HWState) : (drain_state st).1 = pendingView st := by
  cases st <;> rfl

/-- Helper: the queue reads empty immediately after a drain step. -/
theorem pendingView_drainStep (st : HWState) : pendingView (drainStep st) = [] := by
  cases st <;> rfl

/-- Helper: enqueueing appends one command to the observable queue, whatever
the current blob is (missing and malformed blobs restart from the empty
object). -/
theorem pendingView_enqueue (st : HWState) (c p : Text) (ts : DateTime) :
    pendingView (enqueue_command st c p ts) =
      pendingView st ++ [{ command := c, params := p, timestamp := ts }] := by
  cases st <;> rfl

/-- Helper: a batch of enqueues appends its commands, in order, to the
observable queue. -/
theorem pendingView_enqueueBatch (ops : List (Text × Text × DateTime)) :
    ∀ st : HWState, pendingView (enqueueBatch st ops) = pendingView st ++ ops.map opCommand := by
  induction ops with
  | nil => intro st; simp [enqueueBatch]
  | cons op rest ih =>
    intro st
    show pendingView (enqueueBatch (enqueue_command st op.1 op.2.1 op.2.2) rest) = _
    rw [ih, pendingView_enqueue]
    simp [opCommand]

/-- C3: for every input text, `parse_duration` behaves as the spec's
`normalize_duration` describes — lowercase, scan day/week/month in order,
magnitude from the embedded digits scaled by 1/7/30 with per-unit defaults
7/1/1, overall default 7 — and in particular "3 days" gives 3, "2 weeks"
gives 14, "1 month" gives 30, and "" gives 7. -/
theorem normalize_duration_correct :
    (∀ text : Text, parse_duration text = normalize_duration_spec text) ∧
    parse_duration "3 days".toList = 3 ∧
    parse_duration "2 weeks".toList = 14 ∧
    parse_duration "1 month".toList = 30 ∧
    parse_duration "".toList = 7 := by
  refine ⟨fun text => ?_, by decide, by decide, by decide, by decide⟩
  unfold parse_duration normalize_duration_spec duration_unit_table
  cases hd : containsSub "day".toList (lowerText text) <;>
    cases hw : containsSub "week".toList (lowerText text) <;>
      cases hm : containsSub "month".toList (lowerText text) <;>
        simp_all [List.find?]

/-- C4: starting from any device state, after a drain (the previous poll)
and then any sequence of enqueued commands, the next drain returns exactly
those commands in insertion order (duplicates included, no deduplication),
and the drain immediately after it, with no intervening enqueue, returns
the empty list. -/
theorem drain_fifo_exact (st : HWState) (ops : List (Text × Text × DateTime)) :
    (drain_state (enqueueBatch (drainStep st) ops)).1 = ops.map opCommand ∧
    (drain_state (drainStep (enqueueBatch (drainStep st) ops))).1 = [] := by
  constructor
  · rw [drain_state_fst, pendingView_enqueueBatch, pendingView_drainStep]
    simp
  · rw [drain_state_fst, pendingView_drainStep]

/-- C6: a dose row that is already taken can be neither edited nor deleted —
both handlers answer 400 and leave the table untouched — while a pending
dose owned by the caller passes both guards (status 200). -/
theorem taken_dose_immutable (db : List Schedule) (user_id schedule_id : Nat)
    (t : DateTime) (s : Schedule)
    (hfind : db.find? (fun q => q.id == schedule_id && q.user_id == user_id) = some s) :
    (s.taken = true →
      update_schedule db user_id schedule_id (some t) = (400, db) ∧
      delete_schedule db user_id schedule_id = (400, db)) ∧
    (s.taken = false →
      (update_schedule db user_id schedule_id (some t)).1 = 200 ∧
      (delete_schedule db user_id schedule_id).1 = 200) := by
  unfold update_schedule delete_schedule
  rw [hfind]
  constructor
  · intro h; simp [h]
  · intro h; simp [h]

/-- Witness for C6 at a concrete table: the taken row rejects edit and
delete, the pending row accepts both. -/
theorem taken_dose_immutable_witness :
    (update_schedule wdb 1 5 (some ⟨12, 9, 0⟩) = (400, wdb) ∧
      delete_schedule wdb 1 5 = (400, wdb)) ∧
    ((update_schedule wdb 1 6 (some ⟨12, 9, 0⟩)).1 = 200 ∧
      (delete_schedule wdb 1 6).1 = 200) :=
  ⟨(taken_dose_immutable wdb 1 5 ⟨12, 9, 0⟩ wTakenRow (by decide)).1 (by decide),
   (taken_dose_immutable wdb 1 6 ⟨12, 9, 0⟩ wPendingRow (by decide)).2 (by decide)⟩

/-- Helper: the dispense handler's behavior once a concrete schedule id is
supplied (the outer Option match reduced). -/
theorem mark_schedule_dispensed_some (db : List Schedule) (sid : Nat)
    (device_id : Option Text) (now : DateTime) :
    mark_schedule_dispensed db (some sid) device_id now =
      (if sid == 0 then (400, db)
       else
        match db.find? (fun s => s.id == sid) with
        | none => (404, db)
        | some _ => (200, updateFirst (fun s => s.id == sid)
            (fun s => { s with taken := true, taken_at := some now }) db)) := rfl

/-- C9: `mark_schedule_dispensed` is authorized by `schedule_id` alone — two
runs differing only in the supplied `device_id` (either may even be missing)
return the same response and the same table; and for an existing schedule id
the row transitions to taken with `taken_at` stamped, with no device or
owner check affecting the outcome. -/
theorem dispense_ignores_device_id (db : List Schedule) (schedule_id : Option Nat)
    (device_id1 device_id2 : Option Text) (now : DateTime) :
    mark_schedule_dispensed db schedule_id device_id1 now =
      mark_schedule_dispensed db schedule_id device_id2 now ∧
    (∀ sid s, schedule_id = some sid → sid ≠ 0 →
      db.find? (fun q => q.id == sid) = some s →
      (mark_schedule_dispensed db schedule_id device_id1 now).1 = 200 ∧
      { s with taken := true, taken_at := some now } ∈
        (mark_schedule_dispensed db schedule_id device_id1 now).2) := by
  refine ⟨rfl, ?_⟩
  intro sid s hsid hzero hfind
  subst hsid
  have hbeq : (sid == 0) = false := by simpa using hzero
  rw [mark_schedule_dispensed_some, hbeq]
  simp only [Bool.false_eq_true, if_false]
  rw [hfind]
  exact ⟨rfl, mem_updateFirst_of_find? hfind⟩

/-- Witness for C9 at a concrete table: dispensing schedule 6 with device
id "esp-1", with device id "esp-2", or with no device id at all, all agree,
and the row lands taken. -/
theorem dispense_ignores_device_id_witness :
    mark_schedule_dispensed wdb (some 6) (some "esp-1".toList) ⟨11, 10, 0⟩ =
      mark_schedule_dispensed wdb (some 6) none ⟨11, 10, 0⟩ ∧
    (mark_schedule_dispensed wdb (some 6) (some "esp-1".toList) ⟨11, 10, 0⟩).1 = 200 ∧
    { wPendingRow with taken := true, taken_at := some ⟨11, 10, 0⟩ } ∈
      (mark_schedule_dispensed wdb (some 6) (some "esp-1".toList) ⟨11, 10, 0⟩).2 :=
  ⟨(dispense_ignores_device_id wdb (some 6) (some "esp-1".toList) none ⟨11, 10, 0⟩).1,
   (dispense_ignores_device_id wdb (some 6) (some "esp-1".toList) none ⟨11, 10, 0⟩).2
     6 wPendingRow rfl (by decide) (by decide)⟩

/-- Helper: the polling handler's behavior once both query parameters are
supplied (the outer Option match reduced). -/
theorem get_device_commands_some (devices : List IoTDevice) (users : List User)
    (did uname : Text) :
    get_device_commands devices users (some did) (some uname) =
      (if did.isEmpty || uname.isEmpty then (200, [], devices)
       else
        match users.find? (fun u => u.username == uname) with
        | none => (200, [], devices)
        | some user =>
          match devices.find? (fun d => d.device_id == did && d.user_id == user.id) with
          | none => (200, [], devices)
          | some d => (200, (drain_state d.hardware_state).1,
              updateFirst (fun q => q.device_id == did && q.user_id == user.id)
                (fun q => { q with hardware_state := drainStep q.hardware_state }) devices)) := rfl

/-- Helper: the telemetry handler's behavior once both identifiers are
supplied (the outer Option matches reduced). -/
theorem update_device_state_some (devices : List IoTDevice) (users : List User)
    (did uname : Text) (t : Telemetry) :
    update_device_state devices users (some did) (some uname) t =
      (if did.isEmpty then (400, devices)
       else
        match users.find? (fun u => u.username == uname) with
        | none => (404, devices)
        | some user =>
          match devices.find? (fun d => d.device_id == did && d.user_id == user.id) with
          | none => (404, devices)
          | some _ => (200, updateFirst (fun d => d.device_id == did && d.user_id == user.id)
              (fun d =>
                { d with
                  hardware_state := .obj { telemetry := some t, pending_commands := none } })
              devices)) := rfl

/-- Helper: the heartbeat handler's behavior once both fields are supplied
(the outer Option matches reduced). -/
theorem device_heartbeat_some (devices : List IoTDevice) (users : List User)
    (did uname : Text) (dname : Option Text) (now : DateTime) :
    device_heartbeat devices users (some did) (some uname) dname now =
      (if did.isEmpty || uname.isEmpty then (400, devices)
       else
        match users.find? (fun u => u.username == uname) with
        | none => (404, devices)
        | some user =>
          match devices.find? (fun d => d.device_id == did && d.user_id == user.id) with
          | some _ => (200, updateFirst (fun d => d.device_id == did && d.user_id == user.id)
              (fun d => { d with last_seen := some now, is_online := true }) devices)
          | none => (200, devices ++
              [{ user_id := user.id,
                 device_id := did,
                 device_name := dname.getD "Arduino Dispenser".toList,
                 device_type := "Arduino".toList,
                 ip_address := none,
                 is_online := true,
                 last_seen := some now,
                 hardware_state := .empty }])) := rfl

/-- Helper: a non-empty list is not `isEmpty`. -/
theorem isEmpty_false_of_ne_nil {α : Type} {l : List α} (h : l ≠ []) : l.isEmpty = false := by
  cases l with
  | nil => exact absurd rfl h
  | cons a as => rfl

/-- C10: draining a device whose stored `hardware_state` is not parseable as
JSON returns an empty command list and keeps the raw blob byte-for-byte
unchanged, so after any number of further drains the blob is still the same
and the drain still returns empty; at the endpoint the whole device table
comes back untouched. -/
theorem malformed_state_drain_empty (raw : Text) (n : Nat) :
    drain_state (.malformed raw) = ([], .malformed raw) ∧
    drainStep^[n] (.malformed raw) = .malformed raw ∧
    (drain_state (drainStep^[n] (.malformed raw))).1 = [] ∧
    (∀ (devices : List IoTDevice) (users : List User) (did uname : Text)
        (user : User) (d : IoTDevice),
      did ≠ [] → uname ≠ [] →
      users.find? (fun u => u.username == uname) = some user →
      devices.find? (fun q => q.device_id == did && q.user_id == user.id) = some d →
      d.hardware_state = .malformed raw →
      get_device_commands devices users (some did) (some uname) = (200, [], devices)) := by
  have hfix : ∀ m, drainStep^[m] (HWState.malformed raw) = .malformed raw := by
    intro m
    induction m with
    | zero => rfl
    | succ k ih =>
      rw [Function.iterate_succ_apply,
        show drainStep (HWState.malformed raw) = HWState.malformed raw from rfl, ih]
  refine ⟨rfl, hfix n, by rw [hfix n]; rfl, ?_⟩
  intro devices users did uname user d hdid huname hu hd hmal
  rw [get_device_commands_some, isEmpty_false_of_ne_nil hdid, isEmpty_false_of_ne_nil huname]
  simp only [Bool.or_self, Bool.false_eq_true, if_false]
  rw [hu]
  simp only []
  rw [hd]
  simp only []
  have hrow : (fun q : IoTDevice => { q with hardware_state := drainStep q.hardware_state }) d = d := by
    show ({ d with hardware_state := drainStep d.hardware_state } : IoTDevice) = d
    rw [hmal]
    show ({ d with hardware_state := HWState.malformed raw } : IoTDevice) = d
    rw [← hmal]
  rw [updateFirst_eq_self hd hrow, hmal]
  rfl

/-- Witness for C10: polling the device whose blob is malformed answers 200
with no commands and returns the device table unchanged, and ten successive
drain steps leave the blob untouched. -/
theorem malformed_state_drain_empty_witness :
    get_device_commands [cDev, cDevBad] [cUser] (some "esp-2".toList) (some "alice".toList) =
      (200, [], [cDev, cDevBad]) ∧
    drainStep^[10] cDevBad.hardware_state = cDevBad.hardware_state :=
  ⟨(malformed_state_drain_empty "not json \x7b".toList 10).2.2.2
      [cDev, cDevBad] [cUser] "esp-2".toList "alice".toList cUser cDevBad
      (by decide) (by decide) (by decide) (by decide) (by decide),
   (malformed_state_drain_empty "not json \x7b".toList 10).2.1⟩

/-- Counterexample for C5: the device `cDev` holds one queued command, yet
after a telemetry post its stored state holds no pending commands at all —
`telemetry_update` does not leave `pending_commands` untouched. -/
theorem telemetry_update_drops_commands_cex :
    pendingView cDev.hardware_state = [cCmd] ∧
    ((update_device_state [cDev] [cUser] (some "esp-1".toList) (some "alice".toList) cTel).2.map
      (fun d => pendingView d.hardware_state)) = [[]] := by
  decide

/-- C5 (amended): a telemetry post overwrites the addressed device's
`hardware_state` wholesale with an object holding only the new telemetry
snapshot; the `pending_commands` key does not survive, so the queue reads
empty afterwards. -/
theorem telemetry_update_wholesale (devices : List IoTDevice) (users : List User)
    (did uname : Text) (t : Telemetry) (user : User) (d : IoTDevice)
    (hdid : did ≠ [])
    (hu : users.find? (fun u => u.username == uname) = some user)
    (hd : devices.find? (fun q => q.device_id == did && q.user_id == user.id) = some d) :
    (update_device_state devices users (some did) (some uname) t).1 = 200 ∧
    ({ d with hardware_state := HWState.obj { telemetry := some t, pending_commands := none } } : IoTDevice)
      ∈ (update_device_state devices users (some did) (some uname) t).2 ∧
    pendingView (HWState.obj { telemetry := some t, pending_commands := none }) = [] := by
  rw [update_device_state_some, isEmpty_false_of_ne_nil hdid]
  simp only [Bool.false_eq_true, if_false]
  rw [hu]
  simp only []
  rw [hd]
  simp only []
  exact ⟨by trivial, mem_updateFirst_of_find? hd, by trivial⟩

/-- Witness for the amended C5 at the concrete device `cDev`. -/
theorem telemetry_update_wholesale_witness :
    (update_device_state [cDev] [cUser] (some "esp-1".toList) (some "alice".toList) cTel).1 = 200 ∧
    ({ cDev with hardware_state := HWState.obj { telemetry := some cTel, pending_commands := none } } : IoTDevice)
      ∈ (update_device_state [cDev] [cUser] (some "esp-1".toList) (some "alice".toList) cTel).2 ∧
    pendingView (HWState.obj { telemetry := some cTel, pending_commands := none }) = [] :=
  telemetry_update_wholesale [cDev] [cUser] "esp-1".toList "alice".toList cTel cUser cDev
    (by decide) (by decide) (by decide)

/-- Counterexample for C8: a heartbeat for a device_id with no DeviceRecord
(the device table is empty) does not yield NotFound — it answers 200 and
creates a brand-new DeviceRecord. -/
theorem heartbeat_upserts_unknown_device :
    (device_heartbeat [] [hUser] (some "esp-9".toList) (some "bob".toList) none ⟨3, 4, 5⟩).1 = 200 ∧
    ((device_heartbeat [] [hUser] (some "esp-9".toList) (some "bob".toList) none ⟨3, 4, 5⟩).2).length = 1 := by
  decide

/-- C8 (amended): for a device_id with no DeviceRecord, the status-update
path (`/device/<id>/status` via `ESP32Manager.update_device_status`) yields
a non-fatal NotFound and creates or modifies nothing; the heartbeat path
yields NotFound only when the username is unknown (again modifying nothing)
— with a known username it instead upserts, appending a brand-new
DeviceRecord for that user. -/
theorem unknown_device_registry_behavior (devices : List IoTDevice) (users : List User)
    (did uname : Text) (dname ip : Option Text) (now : DateTime)
    (hdid : did ≠ []) (huname : uname ≠ [])
    (hnone : devices.find? (fun d => d.device_id == did) = none) :
    update_device_status devices did true ip now = (false, devices) ∧
    device_status devices did ip now = (404, devices) ∧
    (users.find? (fun u => u.username == uname) = none →
      device_heartbeat devices users (some did) (some uname) dname now = (404, devices)) ∧
    (∀ user, users.find? (fun u => u.username == uname) = some user →
      device_heartbeat devices users (some did) (some uname) dname now =
        (200, devices ++
          [{ user_id := user.id,
             device_id := did,
             device_name := dname.getD "Arduino Dispenser".toList,
             device_type := "Arduino".toList,
             ip_address := none,
             is_online := true,
             last_seen := some now,
             hardware_state := .empty }])) := by
  have hstatus : update_device_status devices did true ip now = (false, devices) := by
    unfold update_device_status
    rw [hnone]
  have hpair : ∀ uid : Nat,
      devices.find? (fun d => d.device_id == did && d.user_id == uid) = none := by
    intro uid
    rw [List.find?_eq_none] at hnone ⊢
    intro x hx hcontra
    rw [Bool.and_eq_true] at hcontra
    exact hnone x hx hcontra.1
  refine ⟨hstatus, ?_, ?_, ?_⟩
  · unfold device_status
    rw [hstatus]
    simp
  · intro hufail
    rw [device_heartbeat_some, isEmpty_false_of_ne_nil hdid, isEmpty_false_of_ne_nil huname]
    simp only [Bool.or_self, Bool.false_eq_true, if_false]
    rw [hufail]
  · intro user hu
    rw [device_heartbeat_some, isEmpty_false_of_ne_nil hdid, isEmpty_false_of_ne_nil huname]
    simp only [Bool.or_self, Bool.false_eq_true, if_false]
    rw [hu]
    simp only []
    rw [hpair user.id]

/-- Witness for the amended C8: with an empty device table, the status path
404s and changes nothing, a heartbeat for an unknown username 404s, and a
heartbeat for bob creates his device row. -/
theorem unknown_device_registry_behavior_witness :
    update_device_status [] "esp-9".toList true none ⟨3, 4, 5⟩ = (false, []) ∧
    device_status [] "esp-9".toList none ⟨3, 4, 5⟩ = (404, []) ∧
    device_heartbeat [] [hUser] (some "esp-9".toList) (some "bob".toList) none ⟨3, 4, 5⟩ =
      (200, [{ user_id := 7,
               device_id := "esp-9".toList,
               device_name := "Arduino Dispenser".toList,
               device_type := "Arduino".toList,
               ip_address := none,
               is_online := true,
               last_seen := some ⟨3, 4, 5⟩,
               hardware_state := .empty }]) :=
  ⟨(unknown_device_registry_behavior [] [hUser] "esp-9".toList "bob".toList none none ⟨3, 4, 5⟩
      (by decide) (by decide) (by decide)).1,
   (unknown_device_registry_behavior [] [hUser] "esp-9".toList "bob".toList none none ⟨3, 4, 5⟩
      (by decide) (by decide) (by decide)).2.1,
   (unknown_device_registry_behavior [] [hUser] "esp-9".toList "bob".toList none none ⟨3, 4, 5⟩
      (by decide) (by decide) (by decide)).2.2.2 hUser (by decide)⟩

/-- C1: regeneration's frame — a row survives regeneration exactly when it
fails the delete filter (same medicine, same owner, `scheduled_time >= now`,
`taken = false`) or is one of the freshly materialized rows from the new
anchor; in particular every taken row of the table survives irrespective of
its time, and every historical row (scheduled before now) survives. -/
theorem regenerate_frame_effect (db : List Schedule) (medicine : Medicine)
    (user_id : Nat) (now start_date : DateTime) :
    (∀ r, r ∈ regenerate_schedules db medicine user_id now start_date ↔
      ((r ∈ db ∧ ¬(r.medicine_id = medicine.id ∧ r.user_id = user_id ∧
          now.toMin ≤ r.scheduled_time.toMin ∧ r.taken = false)) ∨
        r ∈ create_schedules_for_medicine medicine user_id start_date)) ∧
    (∀ r ∈ db, r.taken = true → r ∈ regenerate_schedules db medicine user_id now start_date) ∧
    (∀ r ∈ db, r.scheduled_time.toMin < now.toMin →
      r ∈ regenerate_schedules db medicine user_id now start_date) := by
  have hbool : ∀ b : Schedule,
      ((!(b.medicine_id == medicine.id && b.user_id == user_id &&
        decide (now.toMin ≤ b.scheduled_time.toMin) && b.taken == false)) = true) ↔
      ¬(b.medicine_id = medicine.id ∧ b.user_id = user_id ∧
        now.toMin ≤ b.scheduled_time.toMin ∧ b.taken = false) := by
    intro b
    simp only [Bool.not_eq_true', Bool.eq_false_iff, ne_eq, Bool.and_eq_true,
      beq_iff_eq, decide_eq_true_eq, and_assoc]
  have hmem : ∀ r, r ∈ regenerate_schedules db medicine user_id now start_date ↔
      ((r ∈ db ∧ ¬(r.medicine_id = medicine.id ∧ r.user_id = user_id ∧
          now.toMin ≤ r.scheduled_time.toMin ∧ r.taken = false)) ∨
        r ∈ create_schedules_for_medicine medicine user_id start_date) := by
    intro r
    unfold regenerate_schedules
    rw [List.mem_append, List.mem_filter]
    rw [show ((fun s : Schedule =>
        !(s.medicine_id == medicine.id && s.user_id == user_id &&
          decide (now.toMin ≤ s.scheduled_time.toMin) && s.taken == false)) r = true) ↔
        ¬(r.medicine_id = medicine.id ∧ r.user_id = user_id ∧
          now.toMin ≤ r.scheduled_time.toMin ∧ r.taken = false) from hbool r]
  refine ⟨hmem, ?_, ?_⟩
  · intro r hr ht
    exact (hmem r).mpr (Or.inl ⟨hr, fun hcontra => by
      rw [ht] at hcontra
      exact absurd hcontra.2.2.2 (by simp)⟩)
  · intro r hr hlt
    exact (hmem r).mpr (Or.inl ⟨hr, fun hcontra =>
      absurd hcontra.2.2.1 (Nat.not_le.mpr hlt)⟩)

/-- Witness for C1 at a concrete table: the taken future row and the
historical row survive a regeneration, the pending future row is removed. -/
theorem regenerate_frame_effect_witness :
    wTakenFuture ∈ regenerate_schedules wRegenDb wMed 1 ⟨100, 0, 0⟩ ⟨100, 0, 0⟩ ∧
    wHist ∈ regenerate_schedules wRegenDb wMed 1 ⟨100, 0, 0⟩ ⟨100, 0, 0⟩ ∧
    wFuturePending ∉ regenerate_schedules wRegenDb wMed 1 ⟨100, 0, 0⟩ ⟨100, 0, 0⟩ :=
  ⟨(regenerate_frame_effect wRegenDb wMed 1 ⟨100, 0, 0⟩ ⟨100, 0, 0⟩).2.1
      wTakenFuture (by decide) (by decide),
   (regenerate_frame_effect wRegenDb wMed 1 ⟨100, 0, 0⟩ ⟨100, 0, 0⟩).2.2
      wHist (by decide) (by decide),
   by decide⟩

/-- Helper: every canonical time list the frequency normalizer can return
parses to pairwise-distinct (hour, minute) pairs. -/
theorem extract_timing_parsed_nodup (f : Text) :
    ((extract_timing_from_frequency f).map parseTimeStr).Nodup := by
  have hall : ∀ q ∈ timing_map, ((q.2).map parseTimeStr).Nodup := by decide
  have hdef : ∀ (o : Option (Text × List Text)),
      (∀ p, o = some p → p ∈ timing_map) →
      (((match o with
        | some p => p.2
        | none => ["09:00".toList]) : List Text).map parseTimeStr).Nodup := by
    intro o ho
    cases o with
    | none => decide
    | some p => exact hall p (ho p rfl)
  exact hdef (timing_map.find? (fun p => containsSub p.1 (lowerText f)))
    (fun p hp => List.mem_of_find?_eq_some hp)

/-- C2: materialization emits, for each day offset below the parsed
duration and each canonical time, exactly one dose row (count 1), every
emitted row is pending (`taken = false`) and scheduled at anchor-midnight
plus the day offset plus the time of day, the batch size is exactly
`duration * |times|`, and the quoted "twice daily for 2 days" example
yields precisely the four instances at day 0/1, 09:00 and 21:00. -/
theorem materialization_grid (medicine : Medicine) (user_id : Nat) (anchor : DateTime)
    (hh : anchor.hour = 0) (hm : anchor.minute = 0) :
    (∀ i, i < durationDaysOf medicine →
      ∀ t ∈ extract_timing_from_frequency medicine.frequency,
        (create_schedules_for_medicine medicine user_id anchor).count
          (doseAt medicine user_id anchor i t) = 1) ∧
    (∀ s ∈ create_schedules_for_medicine medicine user_id anchor,
      s.taken = false ∧ ∃ i, i < durationDaysOf medicine ∧
        ∃ t ∈ extract_timing_from_frequency medicine.frequency,
          s = doseAt medicine user_id anchor i t ∧
          s.scheduled_time.toMin = anchor.toMin + i * 1440 +
            ((parseTimeStr t).1 * 60 + (parseTimeStr t).2)) ∧
    (create_schedules_for_medicine medicine user_id anchor).length =
      durationDaysOf medicine * (extract_timing_from_frequency medicine.frequency).length ∧
    create_schedules_for_medicine wMed 1 ⟨0, 0, 0⟩ =
      [{ id := 0, medicine_id := 1, user_id := 1, scheduled_time := ⟨0, 9, 0⟩ },
       { id := 0, medicine_id := 1, user_id := 1, scheduled_time := ⟨0, 21, 0⟩ },
       { id := 0, medicine_id := 1, user_id := 1, scheduled_time := ⟨1, 9, 0⟩ },
       { id := 0, medicine_id := 1, user_id := 1, scheduled_time := ⟨1, 21, 0⟩ }] := by
  have hT : ((extract_timing_from_frequency medicine.frequency).map parseTimeStr).Nodup :=
    extract_timing_parsed_nodup medicine.frequency
  have hcreate : create_schedules_for_medicine medicine user_id anchor =
      (List.range (durationDaysOf medicine)).flatMap (fun day =>
        (extract_timing_from_frequency medicine.frequency).map
          (fun ts => doseAt medicine user_id anchor day ts)) := rfl
  have hinj : ∀ (i j : Nat) (a b : Text),
      doseAt medicine user_id anchor i a = doseAt medicine user_id anchor j b →
      anchor.day + i = anchor.day + j ∧ parseTimeStr a = parseTimeStr b := by
    intro i j a b h
    have hst : (doseAt medicine user_id anchor i a).scheduled_time =
        (doseAt medicine user_id anchor j b).scheduled_time := by rw [h]
    have hday : anchor.day + i = anchor.day + j := congrArg DateTime.day hst
    have hhr : (parseTimeStr a).1 = (parseTimeStr b).1 := congrArg DateTime.hour hst
    have hmin : (parseTimeStr a).2 = (parseTimeStr b).2 := congrArg DateTime.minute hst
    exact ⟨hday, Prod.ext hhr hmin⟩
  have hpairT : List.Pairwise (fun a b => parseTimeStr a ≠ parseTimeStr b)
      (extract_timing_from_frequency medicine.frequency) := List.pairwise_map.mp hT
  have hnodupInner : ∀ i, ((extract_timing_from_frequency medicine.frequency).map
      (fun ts => doseAt medicine user_id anchor i ts)).Nodup := by
    intro i
    refine List.pairwise_map.mpr ?_
    exact hpairT.imp (fun hne heq => hne (hinj i i _ _ heq).2)
  have hdisj : List.Pairwise (List.Disjoint on (fun i =>
      (extract_timing_from_frequency medicine.frequency).map
        (fun ts => doseAt medicine user_id anchor i ts)))
      (List.range (durationDaysOf medicine)) := by
    refine (List.pairwise_lt_range (durationDaysOf medicine)).imp ?_
    intro i j hij x hxi hxj
    rcases List.mem_map.mp hxi with ⟨a, _, rfl⟩
    rcases List.mem_map.mp hxj with ⟨b, _, hba⟩
    have := (hinj j i b a hba).1
    omega
  have hnodup : (create_schedules_for_medicine medicine user_id anchor).Nodup := by
    rw [hcreate, List.nodup_flatMap]
    exact ⟨fun i _ => hnodupInner i, hdisj⟩
  have hmemof : ∀ i, i < durationDaysOf medicine →
      ∀ t ∈ extract_timing_from_frequency medicine.frequency,
        doseAt medicine user_id anchor i t ∈
          create_schedules_for_medicine medicine user_id anchor := by
    intro i hi t ht
    rw [hcreate]
    exact List.mem_flatMap.mpr ⟨i, List.mem_range.mpr hi, List.mem_map.mpr ⟨t, ht, rfl⟩⟩
  refine ⟨fun i hi t ht => List.count_eq_one_of_mem hnodup (hmemof i hi t ht), ?_, ?_, by decide⟩
  · intro s hs
    rw [hcreate] at hs
    rcases List.mem_flatMap.mp hs with ⟨i, hi, hsmap⟩
    rcases List.mem_map.mp hsmap with ⟨t, ht, rfl⟩
    refine ⟨rfl, i, List.mem_range.mp hi, t, ht, rfl, ?_⟩
    show (anchor.day + i) * 1440 + (parseTimeStr t).1 * 60 + (parseTimeStr t).2 =
      (anchor.day * 1440 + anchor.hour * 60 + anchor.minute) + i * 1440 +
        ((parseTimeStr t).1 * 60 + (parseTimeStr t).2)
    rw [hh, hm]
    ring
  · rw [hcreate, List.length_flatMap]
    have hconst : List.map (List.length ∘ fun day =>
        (extract_timing_from_frequency medicine.frequency).map
          (fun ts => doseAt medicine user_id anchor day ts))
        (List.range (durationDaysOf medicine)) =
        List.replicate (durationDaysOf medicine)
          (extract_timing_from_frequency medicine.frequency).length := by
      rw [show (List.length ∘ fun day =>
          (extract_timing_from_frequency medicine.frequency).map
            (fun ts => doseAt medicine user_id anchor day ts)) =
          Function.const Nat (extract_timing_from_frequency medicine.frequency).length from
        funext (fun day => by simp [Function.comp, Function.const])]
      rw [List.map_const, List.length_range]
    rw [hconst, List.sum_replicate, smul_eq_mul]

/-- Witness for C2 at the concrete medicine `wMed` (frequency "twice
daily", duration "2 days") anchored at the midnight of day 0: exactly the
four instances day 0 09:00, day 0 21:00, day 1 09:00, day 1 21:00. -/
theorem materialization_grid_witness :
    create_schedules_for_medicine wMed 1 ⟨0, 0, 0⟩ =
      [{ id := 0, medicine_id := 1, user_id := 1, scheduled_time := ⟨0, 9, 0⟩ },
       { id := 0, medicine_id := 1, user_id := 1, scheduled_time := ⟨0, 21, 0⟩ },
       { id := 0, medicine_id := 1, user_id := 1, scheduled_time := ⟨1, 9, 0⟩ },
       { id := 0, medicine_id := 1, user_id := 1, scheduled_time := ⟨1, 21, 0⟩ }] :=
  (materialization_grid wMed 1 ⟨0, 0, 0⟩ rfl rfl).2.2.2

/-- Helper: when the per-row compartment filter keeps a schedule, it does so
exactly for a found medicine with a positive compartment, building the
payload entry. -/
theorem deviceEntryFor_eq_some (meds : List Medicine) (s : Schedule) (e : DevicePayloadEntry) :
    deviceEntryFor meds s = some e ↔
      ∃ m c, meds.find? (fun q => q.id == s.medicine_id) = some m ∧
        m.compartment_number = some c ∧ 0 < c ∧ e = mkDeviceEntry s m c := by
  unfold deviceEntryFor
  cases hf : meds.find? (fun m => m.id == s.medicine_id) with
  | none => simp
  | some m =>
    cases hc : m.compartment_number with
    | none => simp [hc]
    | some c =>
      by_cases hpos : (0 : Int) < c
      · have hne : (c != 0) = true := by
          rw [bne_iff_ne]
          omega
        simp [hc, hne, hpos, eq_comm]
      · have hcond : (c != 0 && decide (0 < c)) = false := by simp [hpos]
        simp [hc, hcond, hpos]

/-- Helper: a kept payload entry carries its schedule's timestamp. -/
theorem deviceEntryFor_time (meds : List Medicine) (s : Schedule) (e : DevicePayloadEntry)
    (h : deviceEntryFor meds s = some e) : e.scheduled_time = s.scheduled_time.toMin := by
  rcases (deviceEntryFor_eq_some meds s e).mp h with ⟨m, c, _, _, _, rfl⟩
  rfl

/-- Helper: the device-schedules handler once a username is supplied (the
outer Option match reduced). -/
theorem get_device_schedules_some (users : List User) (meds : List Medicine)
    (db : List Schedule) (uname : Text) (now : DateTime) :
    get_device_schedules users meds db (some uname) now =
      (if uname.isEmpty then (400, [])
       else
        match users.find? (fun u => u.username == uname) with
        | none => (404, [])
        | some user => (200, ((db.filter (fun s =>
              s.user_id == user.id &&
              decide (now.toMin ≤ s.scheduled_time.toMin) &&
              decide (s.scheduled_time.toMin ≤ now.toMin + 7 * 1440) &&
              s.taken == false)).mergeSort
            (fun a b => decide (a.scheduled_time.toMin ≤ b.scheduled_time.toMin))).filterMap
            (deviceEntryFor meds))) := rfl

/-- Counterexample for C7: the device-schedules response contains the entry
of the skipped (hence not pending) dose 41 and the entry of the
compartment-4 dose 42, both of which the claim says are excluded. -/
theorem device_schedules_includes_skipped_and_slot4 :
    mkDeviceEntry xSkipped xMedA 1 ∈
      (get_device_schedules [xUser] [xMedA, xMedB] [xSkipped, xComp4]
        (some "carol".toList) ⟨100, 0, 0⟩).2 ∧
    (mkDeviceEntry xSkipped xMedA 1).skipped = true ∧
    mkDeviceEntry xComp4 xMedB 4 ∈
      (get_device_schedules [xUser] [xMedA, xMedB] [xSkipped, xComp4]
        (some "carol".toList) ⟨100, 0, 0⟩).2 ∧
    (mkDeviceEntry xComp4 xMedB 4).compartment_number = 4 := by
  rw [get_device_schedules_some]
  rw [show ("carol".toList.isEmpty) = false from rfl]
  simp only [Bool.false_eq_true, if_false]
  rw [show List.find? (fun u => u.username == "carol".toList) [xUser] = some xUser from by decide]
  simp only []
  refine ⟨?_, rfl, ?_, rfl⟩
  · exact List.mem_filterMap.mpr
      ⟨xSkipped, List.mem_mergeSort.mpr (by decide), by decide⟩
  · exact List.mem_filterMap.mpr
      ⟨xComp4, List.mem_mergeSort.mpr (by decide), by decide⟩

/-- Helper: the schedule sort used by the device-schedules handler really
sorts by scheduled time. -/
theorem sorted_by_time (l : List Schedule) :
    List.Pairwise (fun a b : Schedule =>
      (decide (a.scheduled_time.toMin ≤ b.scheduled_time.toMin)) = true)
      (l.mergeSort (fun a b => decide (a.scheduled_time.toMin ≤ b.scheduled_time.toMin))) :=
  List.sorted_mergeSort
    (fun a b c hab hbc => by
      simp only [decide_eq_true_eq] at *
      omega)
    (fun a b => by
      simp only [Bool.or_eq_true, decide_eq_true_eq]
      omega)
    l

/-- C7 (amended): for a known user, the device-schedules response is exactly
the user's not-taken dose rows scheduled in `[now, now + 7 days]` whose
medicine carries a positive compartment number (any positive value, not
only 1-3; skipped rows are not excluded), formatted and ordered by
scheduled time. -/
theorem device_schedules_characterization (users : List User) (meds : List Medicine)
    (db : List Schedule) (uname : Text) (now : DateTime) (user : User)
    (hname : uname ≠ [])
    (hu : users.find? (fun u => u.username == uname) = some user) :
    (get_device_schedules users meds db (some uname) now).1 = 200 ∧
    List.Pairwise (fun a b => a.scheduled_time ≤ b.scheduled_time)
      (get_device_schedules users meds db (some uname) now).2 ∧
    (∀ e, e ∈ (get_device_schedules users meds db (some uname) now).2 ↔
      ∃ s ∈ db, ∃ m c,
        meds.find? (fun q => q.id == s.medicine_id) = some m ∧
        m.compartment_number = some c ∧ 0 < c ∧
        s.user_id = user.id ∧
        now.toMin ≤ s.scheduled_time.toMin ∧
        s.scheduled_time.toMin ≤ now.toMin + 7 * 1440 ∧
        s.taken = false ∧
        e = mkDeviceEntry s m c) := by
  rw [get_device_schedules_some, isEmpty_false_of_ne_nil hname]
  simp only [Bool.false_eq_true, if_false]
  rw [hu]
  simp only []
  refine ⟨by trivial, ?_, ?_⟩
  · have hsorted := sorted_by_time (db.filter (fun s =>
        s.user_id == user.id &&
        decide (now.toMin ≤ s.scheduled_time.toMin) &&
        decide (s.scheduled_time.toMin ≤ now.toMin + 7 * 1440) &&
        s.taken == false))
    refine List.pairwise_filterMap.mpr (hsorted.imp ?_)
    intro a b hab e he e' he'
    rw [Option.mem_def] at he he'
    rw [deviceEntryFor_time meds a e he, deviceEntryFor_time meds b e' he']
    simpa using hab
  · intro e
    constructor
    · intro he
      rcases List.mem_filterMap.mp he with ⟨s, hs, hf⟩
      rcases (deviceEntryFor_eq_some meds s e).mp hf with ⟨m, c, hm, hc, hpos, rfl⟩
      have hs0 := List.mem_mergeSort.mp hs
      rcases List.mem_filter.mp hs0 with ⟨hsdb, hb⟩
      simp only [Bool.and_eq_true, beq_iff_eq, decide_eq_true_eq] at hb
      exact ⟨s, hsdb, m, c, hm, hc, hpos, hb.1.1.1, hb.1.1.2, hb.1.2, hb.2, rfl⟩
    · rintro ⟨s, hsdb, m, c, hm, hc, hpos, hA, hB, hC, hD, rfl⟩
      refine List.mem_filterMap.mpr ⟨s, ?_, ?_⟩
      · refine List.mem_mergeSort.mpr (List.mem_filter.mpr ⟨hsdb, ?_⟩)
        simp only [Bool.and_eq_true, beq_iff_eq, decide_eq_true_eq]
        exact ⟨⟨⟨hA, hB⟩, hC⟩, hD⟩
      · exact (deviceEntryFor_eq_some meds s (mkDeviceEntry s m c)).mpr
          ⟨m, c, hm, hc, hpos, rfl⟩

/-- Witness for the amended C7 at the concrete table: the response is 200
and contains the compartment-4 entry built from dose 42. -/
theorem device_schedules_characterization_witness :
    (get_device_schedules [xUser] [xMedA, xMedB] [xSkipped, xComp4]
        (some "carol".toList) ⟨100, 0, 0⟩).1 = 200 ∧
    mkDeviceEntry xComp4 xMedB 4 ∈
      (get_device_schedules [xUser] [xMedA, xMedB] [xSkipped, xComp4]
        (some "carol".toList) ⟨100, 0, 0⟩).2 :=
  ⟨(device_schedules_characterization [xUser] [xMedA, xMedB] [xSkipped, xComp4]
      "carol".toList ⟨100, 0, 0⟩ xUser (by decide) (by decide)).1,
   ((device_schedules_characterization [xUser] [xMedA, xMedB] [xSkipped, xComp4]
      "carol".toList ⟨100, 0, 0⟩ xUser (by decide) (by decide)).2.2
      (mkDeviceEntry xComp4 xMedB 4)).mpr
     ⟨xComp4, by decide, xMedB, 4, by decide, by decide, by decide, by decide,
      by decide, by decide, by decide, rfl⟩⟩

end PharmaBot
